import Mathlib

/-!
Verification development for the ztigit concurrent mirroring engine
(internal/mirror/mirror.go and internal/mirror/preflight.go).

The Go code is shallowly embedded as follows:

* `provider.Repository`, `mirror.Options`, `mirror.Result` become Lean
  structures with the same fields.  Go `time.Time` values are modelled as
  `Nat` timestamps, with `0` playing the role of the Go zero time
  (`time.Time.IsZero`), and `time.Time.Before` becoming `<` on `Nat`.
* External effects (the filesystem and the spawned git processes) are
  modelled by an oracle structure `World`: each oracle field records the
  success or output of one kind of external command at a given argument.
  A command run through `exec.CommandContext` fails without starting the
  external process when the context has already been cancelled, which the
  embedding reflects by consulting `World.cancelled` before each git
  command; `os.MkdirAll` takes no context and therefore always runs.
* Each mirror operation additionally returns the list of external effects
  it performed (`Eff`), so that properties of the form "no directory is
  created" or "no git process is started" are statable.
* Go error values built with `fmt.Errorf` wrapping are modelled by the
  inductive type `GErr`, one constructor per `fmt.Errorf` site, keeping
  the wrapping structure.
* Go string functions (`strings.Contains`, `strings.Split`,
  `strings.TrimSpace`, `strings.ToUpper`, `strings.TrimSuffix` with
  `filepath.Ext`, `filepath.ToSlash`) are reimplemented structurally over
  `List Char` so that every definition evaluates inside the kernel.
  Go `len` on strings counts UTF-8 bytes, modelled by `String.utf8ByteSize`.
* `filepath.Join` is modelled as concatenation with a single separator
  for nonempty operands.  (Go additionally runs `filepath.Clean`; on the
  already-clean inputs the engine produces, `Clean` is the identity.)
* The goroutine fan-out of `mirrorRepos` is embedded as a deterministic
  traversal in submission order: every repository is mapped to the single
  result its unit of work sends on the results channel.  Completion order
  of the real channel is abstracted away; the claims treated here are
  about which results exist, not their order.  The admission semaphore is
  modelled separately as a labelled transition system (`SemStep`).
* The `select` statement racing `ctx.Done()` against the semaphore send
  picks a ready branch pseudo-randomly when both are ready (Go language
  semantics); the oracle field `World.selectProceed` records that choice
  per repository.
-/

/-- Searches for `sub` as a contiguous substring of the second list,
modelling Go `strings.Contains`. -/
def hasSubList (sub : List Char) : List Char → Bool
  | [] => sub.isEmpty
  | c :: rest => sub.isPrefixOf (c :: rest) || hasSubList sub rest

/-- Accumulator-based splitting on a separator character. -/
def charSplitAux (sep : Char) : List Char → List Char → List (List Char)
  | [], acc => [acc.reverse]
  | c :: rest, acc =>
    if c = sep then acc.reverse :: charSplitAux sep rest []
    else charSplitAux sep rest (c :: acc)

/-- Splits a character list on a separator, modelling Go `strings.Split`
with a one-character separator. -/
def charSplit (sep : Char) (l : List Char) : List (List Char) :=
  charSplitAux sep l []

/-- Replaces backslashes by forward slashes, modelling `filepath.ToSlash`
on a Windows target (on Unix targets `ToSlash` is the identity, but the
function below is only invoked on the Windows-only code path). -/
def toSlashChars (l : List Char) : List Char :=
  l.map (fun c => if c = '\\' then '/' else c)

/-- Drops leading and trailing whitespace, modelling `strings.TrimSpace`. -/
def trimChars (l : List Char) : List Char :=
  ((l.dropWhile Char.isWhitespace).reverse.dropWhile Char.isWhitespace).reverse

/-- Character list of the literal remote-name marker prepended by git to
the symbolic default-branch reference. -/
def originChars : List Char := ['o', 'r', 'i', 'g', 'i', 'n', '/']

/-- Drops a leading remote-name marker, modelling
`strings.TrimPrefix(ref, "origin/")` in `getDefaultBranch`. -/
def stripOrigin (l : List Char) : String :=
  if originChars.isPrefixOf l then String.mk (l.drop originChars.length)
  else String.mk l

/-- Returns the first character of the candidate list that occurs in `s`,
modelling the loop over `getInvalidPathChars()` in `validatePath`. -/
def findContained (s : List Char) : List Char → Option Char
  | [] => none
  | c :: cs => if s.contains c then some c else findContained s cs

/-- Characters of a path component before its extension, modelling
`strings.TrimSuffix(component, filepath.Ext(component))`. -/
def baseChars (l : List Char) : List Char :=
  let tail := l.reverse.takeWhile (fun c => c != '.')
  if tail.length = l.length then l else l.take (l.length - (tail.length + 1))

/-- Upper-cased basename of a path component, as compared against the
reserved-name table in `validateWindowsReservedNames`. -/
def componentBaseUpper (comp : List Char) : String :=
  String.mk ((baseChars comp).map Char.toUpper)

/-- Whether a component ends in a dot or a space, modelling the trailing
character test of `validateWindowsReservedNames`. -/
def trailingBad (comp : List Char) : Bool :=
  match comp.getLast? with
  | some c => (c == '.') || (c == ' ')
  | none => false

/-- Path separator string used when rebuilding paths. -/
def slashStr : String := "/"

/-- Parent directory of a path, modelling `filepath.Dir` for the plain
slash-separated paths the engine builds. -/
def parentDir (p : String) : String :=
  let parts := charSplit '/' p.toList
  if parts.length ≤ 1 then String.mk ['.']
  else String.intercalate slashStr (parts.dropLast.map String.mk)

/-- Joins a directory and a relative path, modelling `filepath.Join` on
already-clean operands. -/
def joinPath (a b : String) : String :=
  if a = "" then b else if b = "" then a else a ++ slashStr ++ b

/-- Error values, one constructor per `fmt.Errorf` construction site of
the mirror package; wrapping with `%w` becomes a nested constructor. -/
inductive GErr
  /-- path cannot be empty -/
  | emptyPath
  /-- path contains invalid character -/
  | invalidChar (c : Char)
  /-- path contains invalid sequence dot-dot -/
  | pathTraversal
  /-- path contains Windows reserved name -/
  | reservedName (comp : String)
  /-- path component ends with invalid character -/
  | trailingDotOrSpace (comp : String)
  /-- path exceeds maximum relative length -/
  | relTooLong (max got : Nat)
  /-- absolute path length exceeds the platform limit -/
  | absTooLong (limit got : Nat)
  /-- invalid path wrapper produced by mirrorRepo -/
  | invalidPath (p : String) (inner : GErr)
  /-- full path too long wrapper produced by mirrorRepo -/
  | fullPathTooLong (p : String) (inner : GErr)
  /-- failed to create directory -/
  | mkdirFailed (dir : String)
  /-- the context cancellation error returned by ctx.Err() -/
  | ctxCanceled
  /-- generic nonzero-exit failure of an external git command -/
  | gitError
  /-- git clone failed wrapper -/
  | gitCloneFailed (inner : GErr)
  /-- clone failed wrapper (primary only, no fallback available) -/
  | cloneFailed (inner : GErr)
  /-- clone failed with both transports, carrying both method names and
  both underlying errors -/
  | cloneBothFailed (m1 : String) (e1 : GErr) (m2 : String) (e2 : GErr)
  /-- git fetch failed wrapper -/
  | fetchFailed (inner : GErr)
  /-- failed to get default branch wrapper -/
  | defaultBranchFailed (inner : GErr)
  /-- git status failed wrapper -/
  | statusFailed (inner : GErr)
  /-- branch not found locally or on remote -/
  | branchNotFound (branch : String)
  /-- failed to checkout wrapper -/
  | checkoutFailed (branch : String) (inner : GErr)
  /-- git pull and reset failed wrapper -/
  | pullAndResetFailed (inner : GErr)
  /-- update failed wrapper produced by mirrorRepo -/
  | updateFailed (inner : GErr)
  /-- preflight terminal failure, carrying the probe URL of the sample
  repository (the Go code renders host, provider name and remediation
  text from it) -/
  | credentialsFailed (url : String)
deriving DecidableEq

/-- External effects performed by the engine: directory creation and
started git processes. -/
inductive Eff
  | mkdirAll (dir : String)
  | gitClone (url dir : String)
  | gitFetch (dir : String)
  | gitRevParseHead (dir : String)
  | gitStatus (dir : String)
  | gitStash (dir : String)
  | gitCheckout (dir branch : String)
  | gitCheckoutCreate (dir branch : String)
  | gitPull (dir branch : String)
  | gitReset (dir branch : String)
deriving DecidableEq

/-- Remote repository descriptor, modelling `provider.Repository`.
The field `lastUpdated` is a `Nat` timestamp with `0` encoding the Go
zero time, so `IsZero` becomes equality with `0`. -/
structure Repository where
  id : Int
  name : String
  fullPath : String
  cloneURL : String
  sshUrl : String
  defaultBranch : String
  archived : Bool
  lastUpdated : Nat
  size : Int
deriving DecidableEq

/-- Mirror options, modelling `mirror.Options`. -/
structure Options where
  baseDir : String
  parallel : Int
  skipArchived : Bool
  verbose : Bool
  maxAgeMonths : Int
  skipPreflight : Bool
  ssh : Bool
deriving DecidableEq

/-- Outcome of one mirror operation, modelling `mirror.Result`.
Durations are abstracted to `0` (wall-clock time is outside the model). -/
structure Result where
  repository : Repository
  action : String
  error : Option GErr
  duration : Nat
deriving DecidableEq

/-- Action strings used by the engine. -/
def actCloned : String := "cloned"

/-- Action string for the updated outcome. -/
def actUpdated : String := "updated"

/-- Action string for the skipped-archived outcome. -/
def actSkipped : String := "skipped"

/-- Action string for the skipped-stale outcome. -/
def actStale : String := "stale"

/-- Action string for the failed outcome. -/
def actFailed : String := "failed"

/-- Oracle for the external world: platform, cancellation, scheduler
choices, the filesystem, and the outcome of every external git command.
`cutoffDate` models the value `time.Now().AddDate(0, -MaxAgeMonths, 0)`
computed once at the start of `mirrorRepos`.  `selectProceed` records,
per repository path, whether the `select` racing `ctx.Done()` against the
semaphore send picks the semaphore branch when both are ready (when the
context is not cancelled only the semaphore branch can fire, so the field
is consulted only under cancellation). -/
structure World where
  windows : Bool
  cancelled : Bool
  cutoffDate : Nat
  selectProceed : String → Bool
  isGitRepo : String → Bool
  mkdirOK : String → Bool
  cloneOK : String → String → Bool
  fetchOK : String → Bool
  revParseHead : String → Option String
  statusOutput : String → Option String
  stashOK : String → Bool
  checkoutOK : String → String → Bool
  checkoutCreateOK : String → String → Bool
  pullOK : String → String → Bool
  resetOK : String → String → Bool
  probeOK : String → Bool

/-- Mirror instance, modelling the `mirror.Mirror` struct (the provider
collaborator is external and not part of the core model). -/
structure Mirror where
  options : Options

/-- Models `mirror.New`: the parallelism option is coerced to at least 1. -/
def New (opts : Options) : Mirror :=
  if opts.parallel < 1 then { options := { opts with parallel := 1 } }
  else { options := opts }

/-- Models `getInvalidPathChars`: the per-platform character blacklist,
in the iteration order of the Go slice literal. -/
def getInvalidPathChars (windows : Bool) : List Char :=
  if windows then ['<', '>', ':', '"', '|', '?', '*', '\x00']
  else ['\x00']

/-- Models `getMaxRelativePathLength`: the relative-length budget. -/
def getMaxRelativePathLength (windows : Bool) : Nat :=
  if windows then 199 else 3000

/-- Absolute path-length ceiling per platform: Windows MAX_PATH safe
limit 259, Unix PATH_MAX 4096 (the two constants of
`validateFullPathLength`). -/
def pathCeiling (windows : Bool) : Nat :=
  if windows then 259 else 4096

/-- Windows reserved device names, as in `validateWindowsReservedNames`. -/
def reservedNames : List String :=
  [r"CON", r"PRN", r"AUX", r"NUL",
   r"COM1", r"COM2", r"COM3", r"COM4", r"COM5", r"COM6", r"COM7", r"COM8", r"COM9",
   r"LPT1", r"LPT2", r"LPT3", r"LPT4", r"LPT5", r"LPT6", r"LPT7", r"LPT8", r"LPT9"]

/-- Loop body of `validateWindowsReservedNames`: for each component, the
reserved-name comparison runs first, then the trailing dot-or-space test. -/
def checkComponents : List (List Char) → Except GErr Unit
  | [] => .ok ()
  | comp :: rest =>
    if reservedNames.contains (componentBaseUpper comp) then
      .error (.reservedName (String.mk comp))
    else if trailingBad comp then
      .error (.trailingDotOrSpace (String.mk comp))
    else checkComponents rest

/-- Models `validateWindowsReservedNames`: splits the slash-normalised
path into components and checks each. -/
def validateWindowsReservedNames (path : String) : Except GErr Unit :=
  checkComponents (charSplit '/' (toSlashChars path.toList))

/-- Character list for the traversal sequence rejected by `validatePath`. -/
def ddChars : List Char := ['.', '.']

/-- Models `validatePath`: emptiness, character blacklist, traversal
sequence, Windows reserved names and trailing characters, then the
relative length budget, in exactly the order of the Go source. -/
def validatePath (windows : Bool) (fullPath : String) : Except GErr Unit :=
  if fullPath = "" then .error .emptyPath
  else
    match findContained fullPath.toList (getInvalidPathChars windows) with
    | some c => .error (.invalidChar c)
    | none =>
      if hasSubList ddChars fullPath.toList then .error .pathTraversal
      else
        match (if windows then validateWindowsReservedNames fullPath else .ok ()) with
        | .error e => .error e
        | .ok _ =>
          if getMaxRelativePathLength windows < fullPath.utf8ByteSize then
            .error (.relTooLong (getMaxRelativePathLength windows) fullPath.utf8ByteSize)
          else .ok ()

/-- Models `validateFullPathLength`: the absolute length ceiling check
(the Go source writes the Windows and Unix branches separately with the
constants 259 and 4096; `pathCeiling` carries those constants). -/
def validateFullPathLength (windows : Bool) (absolutePath : String) : Except GErr Unit :=
  if pathCeiling windows < absolutePath.utf8ByteSize then
    .error (.absTooLong (pathCeiling windows) absolutePath.utf8ByteSize)
  else .ok ()

/-- Models `cloneRepo`: create the parent directory, then run
`git clone` under the run context.  `os.MkdirAll` always executes; the
git process is not started when the context is already cancelled
(`exec.CommandContext` then returns the context error). -/
def cloneRepo (w : World) (url dir : String) : Option GErr × List Eff :=
  if w.mkdirOK (parentDir dir) = false then
    (some (.mkdirFailed (parentDir dir)), [Eff.mkdirAll (parentDir dir)])
  else if w.cancelled then
    (some (.gitCloneFailed GErr.ctxCanceled), [Eff.mkdirAll (parentDir dir)])
  else if w.cloneOK url dir then
    (none, [Eff.mkdirAll (parentDir dir), Eff.gitClone url dir])
  else
    (some (.gitCloneFailed GErr.gitError), [Eff.mkdirAll (parentDir dir), Eff.gitClone url dir])

/-- Models `getDefaultBranch`: resolve the symbolic remote HEAD with
`git rev-parse --abbrev-ref origin/HEAD`, trim whitespace and strip the
remote-name marker. -/
def getDefaultBranch (w : World) (dir : String) : Except GErr String × List Eff :=
  if w.cancelled then (.error (.defaultBranchFailed GErr.ctxCanceled), [])
  else
    match w.revParseHead dir with
    | none => (.error (.defaultBranchFailed GErr.gitError), [Eff.gitRevParseHead dir])
    | some out => (.ok (stripOrigin (trimChars out.toList)), [Eff.gitRevParseHead dir])

/-- Models `checkoutBranch`: try a plain checkout, then checkout with
creation of a local tracking branch from the remote. -/
def checkoutBranch (w : World) (dir branch : String) : Option GErr × List Eff :=
  if w.cancelled then (some (.branchNotFound branch), [])
  else if w.checkoutOK dir branch then (none, [Eff.gitCheckout dir branch])
  else if w.checkoutCreateOK dir branch then
    (none, [Eff.gitCheckout dir branch, Eff.gitCheckoutCreate dir branch])
  else
    (some (.branchNotFound branch), [Eff.gitCheckout dir branch, Eff.gitCheckoutCreate dir branch])

/-- Models `updateRepo`: fetch all remotes, resolve the default branch,
stash local modifications best-effort, checkout the default branch, then
pull, falling back to a hard reset to the remote branch tip when the
pull fails.  Under an already-cancelled context the first command (the
fetch) fails with the context error before any process starts. -/
def updateRepo (w : World) (dir : String) : Option GErr × List Eff :=
  if w.cancelled then (some (.fetchFailed GErr.ctxCanceled), [])
  else if w.fetchOK dir = false then
    (some (.fetchFailed GErr.gitError), [Eff.gitFetch dir])
  else
    match getDefaultBranch w dir with
    | (.error e, t) => (some e, Eff.gitFetch dir :: t)
    | (.ok branch, t) =>
      match w.statusOutput dir with
      | none => (some (.statusFailed GErr.gitError), Eff.gitFetch dir :: t ++ [Eff.gitStatus dir])
      | some st =>
        let t2 := Eff.gitFetch dir :: t ++ [Eff.gitStatus dir]
          ++ (if st = "" then [] else [Eff.gitStash dir])
        match checkoutBranch w dir branch with
        | (some e, t3) => (some (.checkoutFailed branch e), t2 ++ t3)
        | (none, t3) =>
          if w.pullOK dir branch then (none, t2 ++ t3 ++ [Eff.gitPull dir branch])
          else if w.resetOK dir branch then
            (none, t2 ++ t3 ++ [Eff.gitPull dir branch, Eff.gitReset dir branch])
          else
            (some (.pullAndResetFailed GErr.gitError),
             t2 ++ t3 ++ [Eff.gitPull dir branch, Eff.gitReset dir branch])

/-- Method name for the primary transport, per `mirrorRepo`. -/
def primaryMethodName (opts : Options) : String :=
  if opts.ssh then r"SSH" else r"HTTPS"

/-- Method name for the fallback transport, per `mirrorRepo`. -/
def fallbackMethodName (opts : Options) : String :=
  if opts.ssh then r"HTTPS" else r"SSH"

/-- Primary clone URL chosen by `mirrorRepo` from the configured
transport preference. -/
def clonePrimaryUrl (opts : Options) (r : Repository) : String :=
  if opts.ssh then r.sshUrl else r.cloneURL

/-- Fallback clone URL chosen by `mirrorRepo` (the other transport). -/
def cloneFallbackUrl (opts : Options) (r : Repository) : String :=
  if opts.ssh then r.cloneURL else r.sshUrl

/-- Models `mirrorRepo`: validate the relative path, join it to the
destination root, validate the absolute length, then either smart-update
an existing clone or clone with primary/fallback transport order. -/
def mirrorRepo (w : World) (opts : Options) (repo : Repository) : Result × List Eff :=
  match validatePath w.windows repo.fullPath with
  | .error e => (⟨repo, actFailed, some (.invalidPath repo.fullPath e), 0⟩, [])
  | .ok _ =>
    let repoDir := joinPath opts.baseDir repo.fullPath
    match validateFullPathLength w.windows repoDir with
    | .error e => (⟨repo, actFailed, some (.fullPathTooLong repoDir e), 0⟩, [])
    | .ok _ =>
      if w.isGitRepo repoDir then
        match updateRepo w repoDir with
        | (some e, t) => (⟨repo, actFailed, some (.updateFailed e), 0⟩, t)
        | (none, t) => (⟨repo, actUpdated, none, 0⟩, t)
      else
        match cloneRepo w (clonePrimaryUrl opts repo) repoDir with
        | (none, t) => (⟨repo, actCloned, none, 0⟩, t)
        | (some e, t) =>
          if cloneFallbackUrl opts repo ≠ "" then
            match cloneRepo w (cloneFallbackUrl opts repo) repoDir with
            | (none, t2) => (⟨repo, actCloned, none, 0⟩, t ++ t2)
            | (some e2, t2) =>
              (⟨repo, actFailed,
                some (.cloneBothFailed (primaryMethodName opts) e (fallbackMethodName opts) e2), 0⟩,
               t ++ t2)
          else (⟨repo, actFailed, some (.cloneFailed e), 0⟩, t)

/-- Models the body of the per-repository goroutine of `mirrorRepos`:
the `select` racing the cancellation signal against the semaphore send.
If the context is cancelled and the select picks the `ctx.Done()` branch
(`selectProceed` false; the only possibility when the semaphore is
unavailable), the unit emits a failed result carrying `ctx.Err()` and
performs no work; otherwise it runs `mirrorRepo`. -/
def unitWork (w : World) (opts : Options) (r : Repository) : Result × List Eff :=
  if w.cancelled ∧ w.selectProceed r.fullPath = false then
    (⟨r, actFailed, some GErr.ctxCanceled, 0⟩, [])
  else mirrorRepo w opts r

/-- Models one iteration of the submission loop of `mirrorRepos`: the
archived filter runs first, then the staleness filter (only for a known,
nonzero last-activity timestamp strictly before the cutoff), and every
surviving repository becomes one unit of work. -/
def processRepo (w : World) (opts : Options) (r : Repository) : Result × List Eff :=
  if opts.skipArchived = true ∧ r.archived = true then (⟨r, actSkipped, none, 0⟩, [])
  else if 0 < opts.maxAgeMonths ∧ r.lastUpdated ≠ 0 ∧ r.lastUpdated < w.cutoffDate then
    (⟨r, actStale, none, 0⟩, [])
  else unitWork w opts r

/-- Models `mirrorRepos`: every submitted repository is mapped to the
single result its unit sends on the results channel (the channel has
capacity `len(repos)`, each branch of the loop body sends exactly one
result, and the collector drains the channel until it is closed after
`wg.Wait()`).  Completion order is abstracted to submission order.  The
function has a single `return results, nil`, so the run-level error is
always `none`. -/
def mirrorRepos (w : World) (opts : Options) (repos : List Repository) :
    List Result × Option GErr :=
  (repos.map (fun r => (processRepo w opts r).1), none)

/-- Transport method name constants of the preflight. -/
def sshName : String := "ssh"

/-- Transport method name for HTTPS. -/
def httpsName : String := "https"

/-- Preflight outcome, modelling `mirror.PreflightResult`. -/
structure PreflightResult where
  httpsWorks : Bool
  sshWorks : Bool
  method : String
deriving DecidableEq

/-- Models `testCredentials`: a bounded `git ls-remote` probe; it fails
when the surrounding context is already cancelled. -/
def testCredentials (w : World) (url : String) : Bool :=
  !w.cancelled && w.probeOK url

/-- Ordered candidate list of `Preflight`, built from the configured
transport preference and the sample repository. -/
def methodsFor (opts : Options) (r : Repository) : List (String × String) :=
  if opts.ssh then [(sshName, r.sshUrl), (httpsName, r.cloneURL)]
  else [(httpsName, r.cloneURL), (sshName, r.sshUrl)]

/-- Probe loop of `Preflight`: skip empty URLs, return the first
candidate whose probe succeeds. -/
def firstWorkingMethod (w : World) : List (String × String) → Option String
  | [] => none
  | (nm, u) :: rest =>
    if u = "" then firstWorkingMethod w rest
    else if testCredentials w u then some nm
    else firstWorkingMethod w rest

/-- Models `Preflight`: with no repositories, default to the configured
preference without probing; otherwise probe the candidates in order on
the first repository and fail terminally when none succeeds. -/
def Preflight (w : World) (opts : Options) (repos : List Repository) :
    Except GErr PreflightResult :=
  match repos with
  | [] => .ok ⟨false, false, if opts.ssh then sshName else httpsName⟩
  | test :: _ =>
    match firstWorkingMethod w (methodsFor opts test) with
    | some nm => .ok ⟨nm = httpsName, nm = sshName, nm⟩
    | none => .error (.credentialsFailed test.cloneURL)

/-- Models the option update in `MirrorGroups` after a successful
preflight: SSH is switched on when the preflight chose SSH and the
configuration preferred HTTPS; no other combination changes the options. -/
def applyPreflightMethod (opts : Options) (method : String) : Options :=
  if method = sshName ∧ opts.ssh = false then { opts with ssh := true }
  else opts

/-- Component of the spec-order path validator: first component whose
basename before the extension is a reserved device name. -/
def findReservedOnly (chars : List Char) : Option String :=
  ((charSplit '/' (toSlashChars chars)).find?
    (fun comp => reservedNames.contains (componentBaseUpper comp))).map String.mk

/-- Component of the spec-order path validator: first component ending
in a dot or space. -/
def findTrailingBad (chars : List Char) : Option String :=
  ((charSplit '/' (toSlashChars chars)).find? trailingBad).map String.mk

/-- Whether some component of the path has a reserved basename (the
condition under which the spec promises rejection on Windows targets). -/
def hasReservedComponent (p : String) : Bool :=
  (charSplit '/' (toSlashChars p.toList)).any
    (fun comp => reservedNames.contains (componentBaseUpper comp))

/-- Path validator in the order the spec states it (second definition of
a refinement pair, following the spec words, to be compared with
`validatePath` which follows the source): non-empty, null byte,
traversal sequence, reserved device names on Windows targets, trailing
dot or space on Windows targets, character blacklist, relative length
budget. -/
def validatePathSpecOrder (windows : Bool) (p : String) : Except GErr Unit :=
  if p = "" then .error .emptyPath
  else if p.toList.contains '\x00' then .error (.invalidChar '\x00')
  else if hasSubList ddChars p.toList then .error .pathTraversal
  else
    match (if windows then findReservedOnly p.toList else none) with
    | some comp => .error (.reservedName comp)
    | none =>
      match (if windows then findTrailingBad p.toList else none) with
      | some comp => .error (.trailingDotOrSpace comp)
      | none =>
        match findContained p.toList (getInvalidPathChars windows) with
        | some c => .error (.invalidChar c)
        | none =>
          if getMaxRelativePathLength windows < p.utf8ByteSize then
            .error (.relTooLong (getMaxRelativePathLength windows) p.utf8ByteSize)
          else .ok ()

/-- Phase of one unit of work with respect to the admission semaphore of
`mirrorRepos`: not yet admitted, holding the semaphore (its clone-or-
update work is in flight), or finished (semaphore released, or the unit
took the cancellation branch and never acquired). -/
inductive Phase
  | pending
  | acquired
  | done
deriving DecidableEq

/-- Number of units currently holding the semaphore, i.e. clone-or-update
operations in flight. -/
def inFlight : List Phase → Nat
  | [] => 0
  | Phase.acquired :: rest => inFlight rest + 1
  | _ :: rest => inFlight rest

/-- Transitions of the admission gate of `mirrorRepos` with capacity
`cap`: `acquire` is the semaphore send (a send on a channel with buffer
size `cap` can only proceed while fewer than `cap` tokens are held),
`release` is the deferred receive after the unit finishes, and `cancel`
is the `ctx.Done()` branch of the select, which finishes the unit
without ever acquiring. -/
inductive SemStep (cap : Nat) : List Phase → List Phase → Prop
  | acquire (pre post : List Phase)
      (h : inFlight (pre ++ Phase.pending :: post) < cap) :
      SemStep cap (pre ++ Phase.pending :: post) (pre ++ Phase.acquired :: post)
  | release (pre post : List Phase) :
      SemStep cap (pre ++ Phase.acquired :: post) (pre ++ Phase.done :: post)
  | cancel (pre post : List Phase) :
      SemStep cap (pre ++ Phase.pending :: post) (pre ++ Phase.done :: post)

/-- Reflexive-transitive closure of `SemStep`: the states an execution of
the worker pool can reach. -/
inductive SemReach (cap : Nat) : List Phase → List Phase → Prop
  | refl (s : List Phase) : SemReach cap s s
  | step {s t u : List Phase} : SemReach cap s t → SemStep cap t u → SemReach cap s u

/-- Semaphore capacity of a run constructed by `New` from the given
options (the buffer size of the semaphore channel in `mirrorRepos`). -/
def capOf (opts : Options) : Nat :=
  ((New opts).options.parallel).toNat

deriving instance DecidableEq for Except

/-- Concrete repository used in witnesses: a clean, active repository
with a nested hierarchical path and both transport URLs present. -/
def repoA : Repository :=
  { id := 1, name := "p", fullPath := "g/sub/p", cloneURL := "https://h/g/sub/p.git",
    sshUrl := "git@h:g/sub/p.git", defaultBranch := "main", archived := false,
    lastUpdated := 50, size := 10 }

/-- Concrete repository that is both archived and stale. -/
def repoArchStale : Repository :=
  { repoA with fullPath := "g/sub/q", archived := true, lastUpdated := 5 }

/-- Concrete repository that is stale but not archived. -/
def repoStale : Repository :=
  { repoA with fullPath := "g/sub/s", lastUpdated := 5 }

/-- Concrete repository with no known last-activity timestamp. -/
def repoZero : Repository :=
  { repoA with fullPath := "g/sub/z", lastUpdated := 0 }

/-- Concrete options with the HTTPS-first (prefer-primary) preference. -/
def optsA : Options :=
  { baseDir := "/tmp/x", parallel := 4, skipArchived := true, verbose := false,
    maxAgeMonths := 12, skipPreflight := false, ssh := false }

/-- Concrete options with the SSH-first (prefer-fallback) preference. -/
def optsSsh : Options := { optsA with ssh := true }

/-- Concrete options with a parallelism below the legal minimum. -/
def optsLowPar : Options := { optsA with parallel := -2 }

/-- Concrete world where every external operation succeeds, nothing is
cancelled, the platform is Unix, and the staleness cutoff is 10. -/
def wBase : World :=
  { windows := false, cancelled := false, cutoffDate := 10,
    selectProceed := fun _ => true,
    isGitRepo := fun _ => false,
    mkdirOK := fun _ => true,
    cloneOK := fun _ _ => true,
    fetchOK := fun _ => true,
    revParseHead := fun _ => some "origin/main\n",
    statusOutput := fun _ => some "",
    stashOK := fun _ => true,
    checkoutOK := fun _ _ => true,
    checkoutCreateOK := fun _ _ => true,
    pullOK := fun _ _ => true,
    resetOK := fun _ _ => true,
    probeOK := fun _ => true }

/-- Concrete cancelled world whose select picks the semaphore branch. -/
def wCancelProceed : World := { wBase with cancelled := true }

/-- Concrete cancelled world whose select picks the `ctx.Done()` branch. -/
def wCancelDone : World :=
  { wBase with cancelled := true, selectProceed := fun _ => false }

/-- Concrete world where only the SSH probe authenticates. -/
def wProbeSshOnly : World :=
  { wBase with probeOK := fun u => u = repoA.sshUrl }

/-- Concrete world where only the HTTPS probe authenticates. -/
def wProbeHttpsOnly : World :=
  { wBase with probeOK := fun u => u = repoA.cloneURL }

/-- Concrete world with an existing local clone whose pull fails but
whose hard reset to the remote tip succeeds (force-pushed upstream). -/
def wPullFails : World :=
  { wBase with isGitRepo := fun _ => true, pullOK := fun _ _ => false }

/-- Concrete world with an existing local clone where both the pull and
the reset fail. -/
def wPullResetFail : World :=
  { wPullFails with resetOK := fun _ _ => false }

/-- Concrete world where the primary clone URL is unreachable but the
fallback URL works. -/
def wPrimaryDown : World :=
  { wBase with cloneOK := fun u _ => u = repoA.sshUrl }

/-- Destination root of 100 characters used for the Windows length
witness. -/
def longBase : String := String.mk (List.replicate 100 'a')

/-- Relative path of exactly 199 characters: it passes the Windows
relative budget but overflows MAX_PATH once joined to `longBase`. -/
def longRel : String := String.mk (List.replicate 199 'b')

/-- Concrete Windows-target world. -/
def wWin : World := { wBase with windows := true }

/-- Concrete options whose destination root is `longBase`. -/
def optsLongBase : Options := { optsA with baseDir := longBase }

/-- Concrete repository whose relative path is `longRel`. -/
def repoLong : Repository := { repoA with fullPath := longRel }

/-- Concrete traversal input for the rejection witness. -/
def pathDotdot : String := "g/../etc"

/-- Concrete embedded-null input for the rejection witness. -/
def pathNull : String := String.mk ['g', '/', '\x00', 'x']

/-- Concrete reserved-device-name input for the rejection witness. -/
def pathReserved : String := "g/sub/COM7.log"

/-- Concrete input containing both a traversal sequence and a
blacklisted character, on which the source order and the spec order of
the path validator give different violation reasons. -/
def pathOrderCex : String := "a..<b"

/-- Preflight outcome naming SSH as the chosen method. -/
def pfSsh : PreflightResult := ⟨false, true, sshName⟩

/-- Preflight outcome naming HTTPS as the chosen method. -/
def pfHttps : PreflightResult := ⟨true, false, httpsName⟩

/-- Boolean success test for an `Except` result (pass or fail of a
validator). -/
def exceptOk {ε α : Type} : Except ε α → Bool
  | .ok _ => true
  | .error _ => false

theorem mirrorRepo_repository (w : World) (o : Options) (r : Repository) :
    ((mirrorRepo w o r).1).repository = r := by
  unfold mirrorRepo
  dsimp only
  repeat' split
  all_goals rfl

theorem unitWork_repository (w : World) (o : Options) (r : Repository) :
    ((unitWork w o r).1).repository = r := by
  unfold unitWork
  split
  · rfl
  · exact mirrorRepo_repository w o r

theorem processRepo_repository (w : World) (o : Options) (r : Repository) :
    ((processRepo w o r).1).repository = r := by
  unfold processRepo
  split
  · rfl
  · split
    · rfl
    · exact unitWork_repository w o r

theorem mirrorRepo_error_iff (w : World) (o : Options) (r : Repository) :
    (((mirrorRepo w o r).1).error.isSome = true ↔ ((mirrorRepo w o r).1).action = actFailed) := by
  unfold mirrorRepo
  dsimp only
  repeat' split
  all_goals simp [actCloned, actUpdated, actFailed]

theorem unitWork_error_iff (w : World) (o : Options) (r : Repository) :
    (((unitWork w o r).1).error.isSome = true ↔ ((unitWork w o r).1).action = actFailed) := by
  unfold unitWork
  split
  · simp
  · exact mirrorRepo_error_iff w o r

theorem processRepo_error_iff (w : World) (o : Options) (r : Repository) :
    (((processRepo w o r).1).error.isSome = true ↔ ((processRepo w o r).1).action = actFailed) := by
  unfold processRepo
  split
  · simp [actSkipped, actFailed]
  · split
    · simp [actStale, actFailed]
    · exact unitWork_error_iff w o r

theorem mirrorRepo_action_ne_stale (w : World) (o : Options) (r : Repository) :
    ((mirrorRepo w o r).1).action ≠ actStale := by
  unfold mirrorRepo
  dsimp only
  repeat' split
  all_goals simp [actCloned, actUpdated, actFailed, actStale]

theorem unitWork_action_ne_stale (w : World) (o : Options) (r : Repository) :
    ((unitWork w o r).1).action ≠ actStale := by
  unfold unitWork
  split
  · simp [actFailed, actStale]
  · exact mirrorRepo_action_ne_stale w o r

/-- C1: every repository submitted to `mirrorRepos` yields exactly one
result, in submission order with none dropped and none duplicated, and
the executor never reports a run-level error: a per-repository failure
can only surface inside its own result. -/
theorem mirror_results_complete (w : World) (opts : Options) (repos : List Repository) :
    ((mirrorRepos w opts repos).1.map Result.repository = repos)
    ∧ (mirrorRepos w opts repos).2 = none := by
  constructor
  · simp [mirrorRepos, List.map_map, Function.comp_def, processRepo_repository]
  · rfl

/-- C2: the repository filter checks the archived flag first (so an
archived and stale repository reports as skipped-archived), marks as
stale exactly the repositories with a known nonzero timestamp strictly
before the cutoff when the age limit is positive, never marks a
repository with an unknown timestamp as stale, and sends everything else
on to the clone-or-update unit. -/
theorem filter_partition (w : World) (opts : Options) (r : Repository) :
    (opts.skipArchived = true → r.archived = true →
        processRepo w opts r = (⟨r, actSkipped, none, 0⟩, []))
    ∧ (¬(opts.skipArchived = true ∧ r.archived = true) →
        0 < opts.maxAgeMonths → r.lastUpdated ≠ 0 → r.lastUpdated < w.cutoffDate →
        processRepo w opts r = (⟨r, actStale, none, 0⟩, []))
    ∧ (r.lastUpdated = 0 → ((processRepo w opts r).1).action ≠ actStale)
    ∧ (¬(opts.skipArchived = true ∧ r.archived = true) →
        ¬(0 < opts.maxAgeMonths ∧ r.lastUpdated ≠ 0 ∧ r.lastUpdated < w.cutoffDate) →
        processRepo w opts r = unitWork w opts r) := by
  refine ⟨?_, ?_, ?_, ?_⟩
  · intro h1 h2
    unfold processRepo
    rw [if_pos ⟨h1, h2⟩]
  · intro h hm hz hc
    unfold processRepo
    rw [if_neg h, if_pos ⟨hm, hz, hc⟩]
  · intro hz
    unfold processRepo
    split
    · simp [actSkipped, actStale]
    · split
      · rename_i hcond
        exact absurd hz hcond.2.1
      · exact unitWork_action_ne_stale w opts r
  · intro h1 h2
    unfold processRepo
    rw [if_neg h1, if_neg h2]

/-- Witness for C2: an archived-and-stale repository reports as
skipped-archived, a stale one as stale, one with an unknown timestamp is
not stale, and a fresh one proceeds to its unit of work. -/
theorem filter_partition_witness :
    processRepo wBase optsA repoArchStale = (⟨repoArchStale, actSkipped, none, 0⟩, [])
    ∧ processRepo wBase optsA repoStale = (⟨repoStale, actStale, none, 0⟩, [])
    ∧ ((processRepo wBase optsA repoZero).1).action ≠ actStale
    ∧ processRepo wBase optsA repoA = unitWork wBase optsA repoA :=
  ⟨(filter_partition wBase optsA repoArchStale).1 rfl rfl,
   (filter_partition wBase optsA repoStale).2.1 (by decide) (by decide) (by decide) (by decide),
   (filter_partition wBase optsA repoZero).2.2.1 rfl,
   (filter_partition wBase optsA repoA).2.2.2 (by decide) (by decide)⟩

/-- C10: a result produced by the mirror engine carries an error exactly
when its action is the failed action: skips and successful clones or
updates have no error, every failure has one. -/
theorem error_iff_failed (w : World) (opts : Options) (repos : List Repository) (r : Result)
    (hr : r ∈ (mirrorRepos w opts repos).1) :
    (r.error.isSome = true ↔ r.action = actFailed) := by
  simp only [mirrorRepos, List.mem_map] at hr
  obtain ⟨a, _, rfl⟩ := hr
  exact processRepo_error_iff w opts a

/-- Witness for C10 at a concrete run over one repository. -/
theorem error_iff_failed_witness :
    (((processRepo wBase optsA repoA).1).error.isSome = true
      ↔ ((processRepo wBase optsA repoA).1).action = actFailed) :=
  error_iff_failed wBase optsA [repoA] ((processRepo wBase optsA repoA).1)
    (by simp [mirrorRepos])

/-- Counterexample for C3: with the prefer-fallback (SSH) preference
configured and a world where only the HTTPS probe authenticates, the
preflight selects HTTPS, yet the subsequent clone still uses the SSH URL
as its primary clone URL — the claim as stated fails for the
prefer-fallback preference. -/
theorem transport_order_counterexample :
    optsSsh.ssh = true
    ∧ Preflight wProbeHttpsOnly optsSsh [repoA] = .ok pfHttps
    ∧ clonePrimaryUrl (applyPreflightMethod optsSsh pfHttps.method) repoA ≠ repoA.cloneURL := by
  decide

/-- C3 (amended): after a successful preflight, when the configured
preference is HTTPS the clone uses the preflight-selected transport as
primary with the other as fallback; when the configured preference is
SSH the clone always uses the SSH URL as primary (the option override in
`MirrorGroups` applies only in the HTTPS-to-SSH direction). -/
theorem transport_order_after_preflight (w : World) (opts : Options)
    (repos : List Repository) (pf : PreflightResult) (repo : Repository)
    (_hpf : Preflight w opts repos = .ok pf) :
    (opts.ssh = false →
      clonePrimaryUrl (applyPreflightMethod opts pf.method) repo
          = (if pf.method = sshName then repo.sshUrl else repo.cloneURL)
      ∧ cloneFallbackUrl (applyPreflightMethod opts pf.method) repo
          = (if pf.method = sshName then repo.cloneURL else repo.sshUrl))
    ∧ (opts.ssh = true →
      clonePrimaryUrl (applyPreflightMethod opts pf.method) repo = repo.sshUrl
      ∧ cloneFallbackUrl (applyPreflightMethod opts pf.method) repo = repo.cloneURL) := by
  constructor
  · intro hssh
    by_cases hm : pf.method = sshName
    · simp [applyPreflightMethod, clonePrimaryUrl, cloneFallbackUrl, hm, hssh]
    · simp [applyPreflightMethod, clonePrimaryUrl, cloneFallbackUrl, hm, hssh]
  · intro hssh
    simp [applyPreflightMethod, clonePrimaryUrl, cloneFallbackUrl, hssh]

/-- Witness for the amended C3: with the HTTPS preference and a world
where only SSH authenticates, the preflight selects SSH and the clone
order becomes SSH primary, HTTPS fallback. -/
theorem transport_order_after_preflight_witness :
    clonePrimaryUrl (applyPreflightMethod optsA pfSsh.method) repoA
        = (if pfSsh.method = sshName then repoA.sshUrl else repoA.cloneURL)
    ∧ cloneFallbackUrl (applyPreflightMethod optsA pfSsh.method) repoA
        = (if pfSsh.method = sshName then repoA.cloneURL else repoA.sshUrl) :=
  (transport_order_after_preflight wProbeSshOnly optsA [repoA] pfSsh repoA (by decide)).1 rfl

/-- C4: in the smart update of an existing clone (fetch, branch
resolution, status and checkout all succeeding), a pull failure triggers
a hard reset to the remote branch tip; the result is updated with no
error whenever the pull succeeds or the reset recovers, and failed
exactly when both the pull and the reset fail. -/
theorem update_pull_reset (w : World) (opts : Options) (repo : Repository)
    (dir out st branch : String)
    (hJ : joinPath opts.baseDir repo.fullPath = dir)
    (hC : w.cancelled = false)
    (hV : validatePath w.windows repo.fullPath = .ok ())
    (hL : validateFullPathLength w.windows dir = .ok ())
    (hG : w.isGitRepo dir = true)
    (hF : w.fetchOK dir = true)
    (hB : w.revParseHead dir = some out)
    (hS : w.statusOutput dir = some st)
    (hBr : stripOrigin (trimChars out.data) = branch)
    (hK : w.checkoutOK dir branch = true) :
    (w.pullOK dir branch = false → w.resetOK dir branch = true →
        (mirrorRepo w opts repo).1 = ⟨repo, actUpdated, none, 0⟩)
    ∧ ((mirrorRepo w opts repo).1.action = actFailed
        ↔ (w.pullOK dir branch = false ∧ w.resetOK dir branch = false))
    ∧ (w.pullOK dir branch = false → w.resetOK dir branch = false →
        (mirrorRepo w opts repo).1
          = ⟨repo, actFailed, some (.updateFailed (.pullAndResetFailed GErr.gitError)), 0⟩) := by
  subst hJ
  subst hBr
  by_cases hp : w.pullOK (joinPath opts.baseDir repo.fullPath) (stripOrigin (trimChars out.data)) = true
  · simp [mirrorRepo, updateRepo, getDefaultBranch, checkoutBranch, hC, hV, hL, hG, hF, hB, hS, hK, hp,
      actUpdated, actFailed]
  · by_cases hr : w.resetOK (joinPath opts.baseDir repo.fullPath) (stripOrigin (trimChars out.data)) = true
    · simp [mirrorRepo, updateRepo, getDefaultBranch, checkoutBranch, hC, hV, hL, hG, hF, hB, hS, hK, hp, hr,
        actUpdated, actFailed]
    · simp [mirrorRepo, updateRepo, getDefaultBranch, checkoutBranch, hC, hV, hL, hG, hF, hB, hS, hK, hp, hr,
        actUpdated, actFailed]

/-- Witness for C4: a divergent upstream makes the pull fail, the hard
reset recovers, and the result is updated with no error. -/
theorem update_pull_reset_witness :
    (mirrorRepo wPullFails optsA repoA).1 = ⟨repoA, actUpdated, none, 0⟩ :=
  (update_pull_reset wPullFails optsA repoA "/tmp/x/g/sub/p" "origin/main\n" "" "main"
    (by decide) (by decide) (by decide) (by decide) (by decide) (by decide) (by decide)
    (by decide) (by decide) (by decide)).1 (by decide) (by decide)

/-- C5: on the new-clone path, success with the primary URL yields
cloned with no error; when the primary fails and a nonempty fallback URL
exists the clone is retried with it, yielding cloned on success and
failed with a combined two-transport error only when both attempts
fail; when the primary fails with no fallback available the result is
failed with the single underlying error. -/
theorem clone_fallback (w : World) (opts : Options) (repo : Repository) (dir : String)
    (hJ : joinPath opts.baseDir repo.fullPath = dir)
    (hC : w.cancelled = false)
    (hV : validatePath w.windows repo.fullPath = .ok ())
    (hL : validateFullPathLength w.windows dir = .ok ())
    (hG : w.isGitRepo dir = false)
    (hM : w.mkdirOK (parentDir dir) = true) :
    (w.cloneOK (clonePrimaryUrl opts repo) dir = true →
        (mirrorRepo w opts repo).1 = ⟨repo, actCloned, none, 0⟩)
    ∧ (w.cloneOK (clonePrimaryUrl opts repo) dir = false →
        cloneFallbackUrl opts repo ≠ "" →
        w.cloneOK (cloneFallbackUrl opts repo) dir = true →
        (mirrorRepo w opts repo).1 = ⟨repo, actCloned, none, 0⟩)
    ∧ (w.cloneOK (clonePrimaryUrl opts repo) dir = false →
        cloneFallbackUrl opts repo ≠ "" →
        w.cloneOK (cloneFallbackUrl opts repo) dir = false →
        (mirrorRepo w opts repo).1 = ⟨repo, actFailed,
          some (.cloneBothFailed (primaryMethodName opts) (.gitCloneFailed GErr.gitError)
                (fallbackMethodName opts) (.gitCloneFailed GErr.gitError)), 0⟩)
    ∧ (w.cloneOK (clonePrimaryUrl opts repo) dir = false →
        cloneFallbackUrl opts repo = "" →
        (mirrorRepo w opts repo).1
          = ⟨repo, actFailed, some (.cloneFailed (.gitCloneFailed GErr.gitError)), 0⟩) := by
  subst hJ
  refine ⟨?_, ?_, ?_, ?_⟩
  · intro h1
    simp [mirrorRepo, cloneRepo, hC, hV, hL, hG, hM, h1]
  · intro h1 h2 h3
    simp [mirrorRepo, cloneRepo, hC, hV, hL, hG, hM, h1, h2, h3]
  · intro h1 h2 h3
    simp [mirrorRepo, cloneRepo, hC, hV, hL, hG, hM, h1, h2, h3]
  · intro h1 h2
    simp [mirrorRepo, cloneRepo, hC, hV, hL, hG, hM, h1, h2]

/-- Witness for C5: the primary HTTPS URL is unreachable, the SSH
fallback works, and the result is cloned with no error. -/
theorem clone_fallback_witness :
    (mirrorRepo wPrimaryDown optsA repoA).1 = ⟨repoA, actCloned, none, 0⟩ :=
  (clone_fallback wPrimaryDown optsA repoA "/tmp/x/g/sub/p"
    (by decide) (by decide) (by decide) (by decide) (by decide) (by decide)).2.1
    (by decide) (by decide) (by decide)

theorem findContained_ne_none (l : List Char) (cs : List Char) (c : Char)
    (hc : l.contains c = true) (hm : c ∈ cs) : findContained l cs ≠ none := by
  induction cs with
  | nil => cases hm
  | cons c0 rest ih =>
    unfold findContained
    split
    · simp
    · rename_i hnc
      cases hm with
      | head => exact absurd hc (by simpa using hnc)
      | tail _ hm2 => exact ih hm2

theorem checkComponents_reserved (comps : List (List Char))
    (h : comps.any (fun comp => reservedNames.contains (componentBaseUpper comp)) = true) :
    exceptOk (checkComponents comps) = false := by
  induction comps with
  | nil => simp at h
  | cons comp rest ih =>
    unfold checkComponents
    simp only [List.any_cons, Bool.or_eq_true] at h
    split
    · simp [exceptOk]
    · rename_i hres
      split
      · simp [exceptOk]
      · cases h with
        | inl h1 => exact absurd h1 (by simpa using hres)
        | inr h2 => exact ih h2

theorem nullChar_mem_blacklist (win : Bool) : '\x00' ∈ getInvalidPathChars win := by
  cases win <;> decide

/-- C6 (amended): the Path Validator rejects every input containing a
traversal sequence, every input containing an embedded null byte, and,
on Windows targets, every input with a reserved-device-name component —
all before any directory is created (the validator performs no effects);
but the check order differs from the spec: the character blacklist
(with the null byte last among the blacklisted characters) runs before
the traversal check, and the reserved-name and trailing-character checks
are interleaved per component, as the final conjunct shows — a traversal
rejection is only ever reported when no blacklisted character occurs. -/
theorem path_validator_rejection (win : Bool) (p : String) :
    (hasSubList ddChars p.toList = true → exceptOk (validatePath win p) = false)
    ∧ (p.toList.contains '\x00' = true → exceptOk (validatePath win p) = false)
    ∧ (win = true → hasReservedComponent p = true → exceptOk (validatePath win p) = false)
    ∧ (validatePath win p = .error GErr.pathTraversal →
        findContained p.toList (getInvalidPathChars win) = none) := by
  refine ⟨?_, ?_, ?_, ?_⟩
  · intro h
    unfold validatePath
    repeat' split
    all_goals simp_all [exceptOk]
  · intro h
    have hnc := findContained_ne_none p.toList (getInvalidPathChars win) '\x00' h
      (nullChar_mem_blacklist win)
    unfold validatePath
    repeat' split
    all_goals simp_all [exceptOk]
  · intro hw h
    subst hw
    have hbad : exceptOk (validateWindowsReservedNames p) = false := by
      unfold validateWindowsReservedNames
      exact checkComponents_reserved _ (by simpa [hasReservedComponent] using h)
    unfold validatePath
    repeat' split
    all_goals simp_all [exceptOk, validateWindowsReservedNames]
  · intro h
    unfold validatePath at h
    by_cases hp : p = ""
    · simp [hp] at h
    · rw [if_neg hp] at h
      cases hfc : findContained p.toList (getInvalidPathChars win) with
      | none => rfl
      | some c =>
        rw [hfc] at h
        simp at h

/-- Witness for the amended C6: a traversal input, a null-byte input and
a Windows reserved-name input are each rejected. -/
theorem path_validator_rejection_witness :
    exceptOk (validatePath false pathDotdot) = false
    ∧ exceptOk (validatePath false pathNull) = false
    ∧ exceptOk (validatePath true pathReserved) = false :=
  ⟨(path_validator_rejection false pathDotdot).1 (by decide),
   (path_validator_rejection false pathNull).2.1 (by decide),
   (path_validator_rejection true pathReserved).2.2.1 rfl (by decide)⟩

/-- Counterexample for C6: on an input containing both a traversal
sequence and a blacklisted character, the source validator reports the
blacklisted character while the spec-ordered validator reports the
traversal sequence, so the validator does not check in the spec order. -/
theorem path_validator_order_counterexample :
    validatePath true pathOrderCex ≠ validatePathSpecOrder true pathOrderCex
    ∧ validatePath true pathOrderCex = .error (GErr.invalidChar '<')
    ∧ validatePathSpecOrder true pathOrderCex = .error GErr.pathTraversal := by
  decide

set_option maxRecDepth 8000

/-- C7: after joining the repository path to the destination root, the
second validation rejects any absolute path longer than the platform
ceiling even when the relative form passed the first check; the
repository gets a failed result with a descriptive error, no effect is
performed for it (no directory created), and the run as a whole still
returns no run-level error. -/
theorem absolute_length_second_check (w : World) (opts : Options) (repo : Repository)
    (dir : String)
    (hJ : joinPath opts.baseDir repo.fullPath = dir)
    (hV : validatePath w.windows repo.fullPath = .ok ())
    (hLen : pathCeiling w.windows < dir.utf8ByteSize) :
    mirrorRepo w opts repo
      = (⟨repo, actFailed,
          some (.fullPathTooLong dir (.absTooLong (pathCeiling w.windows) dir.utf8ByteSize)), 0⟩,
         ([] : List Eff))
    ∧ (∀ repos : List Repository, (mirrorRepos w opts repos).2 = none) := by
  constructor
  · subst hJ
    simp [mirrorRepo, validateFullPathLength, hV, hLen]
  · intro repos
    rfl

/-- Witness for C7: a 199-character relative path passes the Windows
relative check, but joined to a 100-character destination root the
300-character absolute path exceeds 259 and the repository fails alone. -/
theorem absolute_length_second_check_witness :
    mirrorRepo wWin optsLongBase repoLong
      = (⟨repoLong, actFailed,
          some (.fullPathTooLong (joinPath optsLongBase.baseDir repoLong.fullPath)
            (.absTooLong (pathCeiling wWin.windows)
              (joinPath optsLongBase.baseDir repoLong.fullPath).utf8ByteSize)), 0⟩,
         ([] : List Eff))
    ∧ (∀ repos : List Repository, (mirrorRepos wWin optsLongBase repos).2 = none) :=
  absolute_length_second_check wWin optsLongBase repoLong
    (joinPath optsLongBase.baseDir repoLong.fullPath) rfl (by decide) (by decide)

/-- Counterexample for C8: in a cancelled run whose select picks the
(equally ready) semaphore branch, the unit proceeds: it is not the
cancellation-tagged result with an empty effect list — the parent
directory is created (twice, once per clone attempt) and the result
carries a combined clone error instead of the cancellation reason. -/
theorem cancelled_unit_counterexample :
    wCancelProceed.cancelled = true
    ∧ unitWork wCancelProceed optsA repoA
        ≠ (⟨repoA, actFailed, some GErr.ctxCanceled, 0⟩, ([] : List Eff))
    ∧ (unitWork wCancelProceed optsA repoA).2 ≠ ([] : List Eff) := by
  decide

/-- C8 (amended): a unit that starts under an already-fired cancellation
signal and whose select observes the cancellation branch (guaranteed
whenever the admission gate is unavailable, and one of the two possible
outcomes of the pseudo-random select otherwise) emits a failed result
tagged with the cancellation reason and performs no filesystem or
network work. -/
theorem cancelled_unit_no_work (w : World) (opts : Options) (r : Repository)
    (hC : w.cancelled = true) (hSel : w.selectProceed r.fullPath = false) :
    unitWork w opts r = (⟨r, actFailed, some GErr.ctxCanceled, 0⟩, ([] : List Eff)) := by
  unfold unitWork
  rw [if_pos ⟨hC, hSel⟩]

/-- Witness for the amended C8 at a concrete cancelled world. -/
theorem cancelled_unit_no_work_witness :
    unitWork wCancelDone optsA repoA
      = (⟨repoA, actFailed, some GErr.ctxCanceled, 0⟩, ([] : List Eff)) :=
  cancelled_unit_no_work wCancelDone optsA repoA rfl rfl

theorem inFlight_append (a b : List Phase) : inFlight (a ++ b) = inFlight a + inFlight b := by
  induction a with
  | nil => simp [inFlight]
  | cons x rest ih =>
    cases x
    all_goals simp [inFlight, ih]
    all_goals omega

theorem inFlight_replicate (n : Nat) : inFlight (List.replicate n Phase.pending) = 0 := by
  induction n with
  | zero => rfl
  | succ k ih => simp [List.replicate_succ, inFlight, ih]

theorem semStep_inFlight_le (cap : Nat) (s t : List Phase) (hs : SemStep cap s t)
    (h : inFlight s ≤ cap) : inFlight t ≤ cap := by
  cases hs with
  | acquire pre post hlt =>
    simp [inFlight_append, inFlight] at hlt ⊢
    omega
  | release pre post =>
    simp [inFlight_append, inFlight] at h ⊢
    omega
  | cancel pre post =>
    simp [inFlight_append, inFlight] at h ⊢
    omega

theorem semReach_inFlight_le (cap : Nat) (s t : List Phase) (hr : SemReach cap s t)
    (h : inFlight s ≤ cap) : inFlight t ≤ cap := by
  induction hr with
  | refl => exact h
  | step hreach hstep ih => exact semStep_inFlight_le _ _ _ hstep ih

/-- C9: in every state the worker pool can reach from the all-pending
initial state, at most `capOf opts` clone-or-update operations hold the
admission semaphore simultaneously — acquisition happens before the work
and release after — and the capacity produced by `New` is at least 1. -/
theorem concurrency_bound (opts : Options) (n : Nat) (s : List Phase)
    (h : SemReach (capOf opts) (List.replicate n Phase.pending) s) :
    inFlight s ≤ capOf opts ∧ 1 ≤ capOf opts := by
  constructor
  · exact semReach_inFlight_le _ _ _ h (by simp [inFlight_replicate])
  · unfold capOf New
    split
    · exact Nat.le.refl
    · rename_i hge
      dsimp only
      omega

/-- Witness for C9: from three pending units with coerced capacity 1,
one acquisition step reaches a state with one unit in flight, within the
bound. -/
theorem concurrency_bound_witness :
    inFlight [Phase.acquired, Phase.pending, Phase.pending] ≤ capOf optsLowPar
    ∧ 1 ≤ capOf optsLowPar :=
  concurrency_bound optsLowPar 3 [Phase.acquired, Phase.pending, Phase.pending]
    (SemReach.step (SemReach.refl _)
      (SemStep.acquire [] [Phase.pending, Phase.pending] (by decide)))
